import Mathlib

/-!
Shallow embedding of the Conversation & Intent Orchestration Engine of the
MyProject server (`src/server/ai.ts`, `src/server/routes.ts`,
`src/server/index.ts`, `src/shared/schema.ts`), together with theorems
settling the frozen claims about it.

Conventions of the embedding:
* JavaScript strings are Lean `String`s; `text.toLowerCase()` is
  `String.toLower`, `text.trim()` is `String.trim`, and
  `a.includes(b)` (substring containment) is `strIncludes a b`.
* The relational store is a `Store` value threaded explicitly through the
  handlers; each `DatabaseStorage` method of `src/server/index.ts` becomes a
  `Store.*` function.  Persistence never fails in the model (the source
  catches and logs persistence errors; those paths are not claimed).
* SQL `numeric` columns travel as strings in the source and are converted
  with `Number(...)`; the model carries them as `Option ℚ` where `none`
  stands for a value whose `Number(...)` conversion is `NaN`.  The
  `toFixed(2)` formatting applied when persisting an order is dropped: all
  claim values are exact two-decimal quantities, for which the formatting is
  value-preserving.
* The Gemini backend, the outbound Meta HTTP call and `Date.now()` are
  external effects: they enter as explicit parameters (a `backend` function
  of the attempt number, the `aiReply` string a generator call would return,
  a `now` timestamp).  Invocations of the Response Generator are counted in
  the handlers' results so that spy-style claims can be stated.
-/

namespace MyProject

/-! ## String primitives shared by the classifier and the heuristic -/

/-- JavaScript `text.toLowerCase()`, character by character (ASCII letters are
mapped; the Arabic keywords are case-less and unchanged). -/
def strLower (s : String) : String :=
  ⟨s.data.map Char.toLower⟩

/-- JavaScript `text.trim()`: strip whitespace from both ends. -/
def strTrim (s : String) : String :=
  ⟨((s.data.dropWhile Char.isWhitespace).reverse.dropWhile Char.isWhitespace).reverse⟩

/-- JavaScript `a.includes(b)`: `b` occurs as a contiguous substring of `a`. -/
def strIncludes (a b : String) : Bool :=
  go b.toList a.toList
where
  go (pat : List Char) : List Char → Bool
    | [] => pat.isEmpty
    | l@(_ :: rest) => pat.isPrefixOf l || go pat rest

/-- Case-insensitive literal match at the head of the character list, as
performed for literal pieces of an `/i` regex; returns the remainder on
success. -/
def ciLiteral (pat : String) (cs : List Char) : Option (List Char) :=
  go pat.toList cs
where
  go : List Char → List Char → Option (List Char)
    | [], rest => some rest
    | _, [] => none
    | p :: ps, c :: rest => if p.toLower = c.toLower then go ps rest else none

/-- Value of `parseInt` on a list of decimal digit characters. -/
def digitsToNat (ds : List Char) : Nat :=
  ds.foldl (fun n c => n * 10 + (c.toNat - '0'.toNat)) 0

/-! ## Intent Classifier (`parseIntent`, src/server/ai.ts lines 191-212) -/

inductive IntentType where
  | order
  | appointment
  | human_request
  | general
deriving DecidableEq, Repr

def englishHumanKeywords : List String :=
  ["human", "support", "talk to someone", "speak with person", "agent", "human agent"]

def englishOrderKeywords : List String :=
  ["order", "buy", "purchase"]

def englishAppointmentKeywords : List String :=
  ["book", "appointment", "schedule", "reserve", "reservation"]

def arabicHumanKeywords : List String :=
  ["بشري", "انسان", "شخص", "موظف", "ممثل", "دعم", "خدمة", "مساعدة"]

def arabicOrderKeywords : List String :=
  ["طلب", "أطلب", "اشتري", "شراء", "اريد طلب", "اريد شراء"]

def arabicAppointmentKeywords : List String :=
  ["حجز", "احجز", "موعد", "جدول", "اريد موعد", "احدد موعد"]

/-- `includesKeyword` from `parseIntent`: some keyword of the set occurs as a
substring of the lower-cased message. -/
def includesKeyword (keywords : List String) (normalized : String) : Bool :=
  keywords.any (fun keyword => strIncludes normalized keyword)

/-- `parseIntent` (src/server/ai.ts): lower-case the text and test the four
keyword families in priority order human_request > order > appointment. -/
def parseIntent (message : String) : IntentType :=
  let normalized := strLower message
  if includesKeyword englishHumanKeywords normalized || includesKeyword arabicHumanKeywords normalized then
    .human_request
  else if includesKeyword englishOrderKeywords normalized || includesKeyword arabicOrderKeywords normalized then
    .order
  else if includesKeyword englishAppointmentKeywords normalized || includesKeyword arabicAppointmentKeywords normalized then
    .appointment
  else
    .general

/-! ## Response Generator retry/backoff (src/server/ai.ts lines 64-137)

The Gemini call is the external backend; it is modelled as a function from
the 1-based attempt number to `Except String String` (error message or the
extracted response text; the three provider response shapes of the source
all end in one text string).  `callModelWithRetryFrom` records the outcome,
the number of attempts performed and the backoff delays slept between failed
attempts. -/

def AI_MAX_RETRIES : Nat := 3

def AI_RETRY_BASE_DELAY_MS : Nat := 500

structure RetryRun where
  outcome : Except String String
  attemptsUsed : Nat
  delays : List Nat
deriving Repr

/-- `callModelWithRetry` of src/server/ai.ts, starting from a given attempt
number: on success return the text; on failure rethrow once
`attempt >= AI_MAX_RETRIES`, otherwise sleep `500 * 2 ^ (attempt - 1)` ms and
retry with `attempt + 1`. -/
def callModelWithRetryFrom (backend : Nat → Except String String) (attempt : Nat) : RetryRun :=
  match backend attempt with
  | .ok s => { outcome := .ok s, attemptsUsed := attempt, delays := [] }
  | .error e =>
    if AI_MAX_RETRIES ≤ attempt then
      { outcome := .error e, attemptsUsed := attempt, delays := [] }
    else
      let r := callModelWithRetryFrom backend (attempt + 1)
      { r with delays := AI_RETRY_BASE_DELAY_MS * 2 ^ (attempt - 1) :: r.delays }
termination_by AI_MAX_RETRIES - attempt
decreasing_by simp_all [AI_MAX_RETRIES]; omega

/-- Fallback string returned when every retry attempt failed. -/
def technicalDifficultiesFallback : String :=
  "I apologize, I'm experiencing technical difficulties. A human agent will assist you shortly."

/-- Fallback string substituted for an empty or whitespace-only success. -/
def troubleRespondingFallback : String :=
  "I apologize, I'm having trouble responding right now. Please try again."

/-- `generateAIResponse` (src/server/ai.ts lines 95-138) restricted to its
returned value: the per-conversation rate-limit delay and the prompt
construction do not influence the string handed back to the caller.
`aiText?.trim() || fallback` keeps the trimmed text when it is non-empty and
substitutes the "trouble responding" fallback otherwise; a raised error from
the retry loop is caught and mapped to the apologetic fallback. -/
def generateAIResponse (backend : Nat → Except String String) : String :=
  match (callModelWithRetryFrom backend 1).outcome with
  | .error _ => technicalDifficultiesFallback
  | .ok aiText =>
    let trimmed := strTrim aiText
    if trimmed = "" then troubleRespondingFallback else trimmed

/-! ## Regex scanners of the Order Extraction Heuristic
(src/server/routes.ts lines 119-125)

Each JavaScript regex used by `maybeCreateOrderFromConversation` is embedded
as a leftmost-match scanner over the character list of the subject string.
Alternations whose branches start with distinct characters are tried with
`<|>`; greedy pieces that later pieces can never reclaim (whitespace before
a non-whitespace literal, a digit run before a letter literal) are taken
maximally; the one place where JavaScript backtracking is observable — the
`\s+` before the lazy capture group of the name regex, whose group also
accepts whitespace — is reproduced by trying whitespace widths in greedy
order. -/

/-- Character class `[A-Za-z\s]` of the name-capture group. -/
def isNameChar (c : Char) : Bool :=
  c.isAlpha || c.isWhitespace

/-- Character class `[0-9+\-]` of the phone-capture group. -/
def isPhoneChar (c : Char) : Bool :=
  c.isDigit || c = '+' || c = '-'

/-- Lookahead `(?:,|\.|and|phone|$)` that terminates the lazy name capture. -/
def nameStopHere (cs : List Char) : Bool :=
  match cs with
  | [] => true
  | c :: _ => c = ',' || c = '.' || (ciLiteral "and" cs).isSome || (ciLiteral "phone" cs).isSome

/-- Lazy capture `([A-Za-z\s]+?)` followed by the stop lookahead: accumulate
name characters one at a time, stopping as soon as the lookahead matches. -/
def nameGroupLazy (acc : List Char) : List Char → Option String
  | [] => none
  | c :: rest =>
    if isNameChar c then
      if nameStopHere rest then some (String.mk (acc ++ [c]))
      else nameGroupLazy (acc ++ [c]) rest
    else none

/-- `\s+` before the name group, tried at widths `k, k-1, …, 1` (greedy order
with backtracking, since the group itself accepts whitespace). -/
def nameTryWhitespace (cs : List Char) : Nat → Option String
  | 0 => none
  | k + 1 =>
    match nameGroupLazy [] (cs.drop (k + 1)) with
    | some captured => some captured
    | none => nameTryWhitespace cs k

/-- Suffix of the name regex after one of its keyword alternatives. -/
def nameAfterKeyword (cs : List Char) : Option String :=
  nameTryWhitespace cs (cs.takeWhile Char.isWhitespace).length

/-- `recentUserMessages.match(/(?:name is|i'm|i am)\s+([A-Za-z\s]+?)(?:,|\.|and|phone|$)/i)`:
capture group of the leftmost match, if any.  The three keyword alternatives
differ at their second character, so at most one can fire at a position. -/
def nameMatchScan : List Char → Option String
  | [] => none
  | cs@(_ :: rest) =>
    match ciLiteral "name is" cs <|> ciLiteral "i'm" cs <|> ciLiteral "i am" cs with
    | some after =>
      match nameAfterKeyword after with
      | some captured => some captured
      | none => nameMatchScan rest
    | none => nameMatchScan rest

/-- `([0-9+\-]+)` at the head of the list (greedy, at least one character). -/
def phoneDigitsHere (cs : List Char) : Option String :=
  let run := cs.takeWhile isPhoneChar
  if run.isEmpty then none else some (String.mk run)

/-- Suffix `\s*(?:is)?\s*([0-9+\-]+)` of the phone regex: whitespace is taken
greedily (no later piece can match whitespace), the optional `is` is tried
first, and the digit run is greedy. -/
def phoneAfterKeyword (cs : List Char) : Option String :=
  let afterWs := cs.dropWhile Char.isWhitespace
  match (match ciLiteral "is" afterWs with
         | some afterIs => phoneDigitsHere (afterIs.dropWhile Char.isWhitespace)
         | none => none) with
  | some captured => some captured
  | none => phoneDigitsHere (afterWs.dropWhile Char.isWhitespace)

/-- `recentUserMessages.match(/(?:phone|number|contact)\s*(?:is)?\s*([0-9+\-]+)/i)`:
capture group of the leftmost match, if any. -/
def phoneMatchScan : List Char → Option String
  | [] => none
  | cs@(_ :: rest) =>
    match ciLiteral "phone" cs <|> ciLiteral "number" cs <|> ciLiteral "contact" cs with
    | some after =>
      match phoneAfterKeyword after with
      | some captured => some captured
      | none => phoneMatchScan rest
    | none => phoneMatchScan rest

/-- `recentUserMessages.match(/(\d+)\s*(?:units?|items?|pieces?)/i)`: value of
the digit capture of the leftmost match, if any.  The digit run is greedy
(the unit literal starts with a letter, so shorter runs never help), and the
optional trailing `s` ends the pattern so it constrains nothing. -/
def quantityMatchScan : List Char → Option Nat
  | [] => none
  | cs@(_ :: rest) =>
    let ds := cs.takeWhile Char.isDigit
    if ds.isEmpty then quantityMatchScan rest
    else
      let afterWs := (cs.drop ds.length).dropWhile Char.isWhitespace
      if (ciLiteral "unit" afterWs).isSome || (ciLiteral "item" afterWs).isSome
          || (ciLiteral "piece" afterWs).isSome then
        some (digitsToNat ds)
      else quantityMatchScan rest

/-! ## Data model (src/shared/schema.ts) -/

structure Shop where
  id : Nat
  name : String
  businessType : String
deriving DecidableEq, Repr

/-- `products` row.  `price`/`cost` are the `Number(...)` views of the
`numeric` columns (`none` = `NaN`); `stock` is the signed `integer` column. -/
structure Product where
  id : Nat
  shopId : Nat
  name : String
  price : Option ℚ
  cost : Option ℚ
  stock : Int
  active : Bool
deriving DecidableEq, Repr

structure Conversation where
  id : Nat
  shopId : Nat
  customerId : String
  customerName : Option String
  platform : String
  status : String
  pausedForHuman : Bool
  lastMessageAt : Nat
deriving DecidableEq, Repr

structure Message where
  id : Nat
  conversationId : Nat
  role : String
  content : String
  createdAt : Nat
deriving DecidableEq, Repr

structure Order where
  id : Nat
  shopId : Nat
  productId : Option Nat
  productName : String
  quantity : Nat
  price : ℚ
  cost : ℚ
  revenue : ℚ
  profit : ℚ
  customerName : String
  customerPhone : Option String
  platform : String
  status : String
deriving DecidableEq, Repr

/-- Partial update object for `storage.updateConversation`: one `some` field
per key present in the JavaScript `data` literal. -/
structure ConversationPatch where
  customerName : Option String
  status : Option String
  pausedForHuman : Option Bool
  lastMessageAt : Option Nat
deriving DecidableEq, Repr

def emptyConversationPatch : ConversationPatch :=
  { customerName := none, status := none, pausedForHuman := none, lastMessageAt := none }

def applyConversationPatch (p : ConversationPatch) (c : Conversation) : Conversation :=
  { c with
    customerName := match p.customerName with | some v => some v | none => c.customerName
    status := p.status.getD c.status
    pausedForHuman := p.pausedForHuman.getD c.pausedForHuman
    lastMessageAt := p.lastMessageAt.getD c.lastMessageAt }

/-- Partial update object for `storage.updateProduct` (`PUT /api/products/:id`
forwards `req.body` unchanged, so every column the claims touch can appear;
`description` is elided as no claim mentions it). -/
structure ProductPatch where
  name : Option String
  price : Option (Option ℚ)
  cost : Option (Option ℚ)
  stock : Option Int
  active : Option Bool
deriving DecidableEq, Repr

def emptyProductPatch : ProductPatch :=
  { name := none, price := none, cost := none, stock := none, active := none }

def applyProductPatch (p : ProductPatch) (prod : Product) : Product :=
  { prod with
    name := p.name.getD prod.name
    price := p.price.getD prod.price
    cost := p.cost.getD prod.cost
    stock := p.stock.getD prod.stock
    active := p.active.getD prod.active }

/-! ## Conversation/Catalog Store (`DatabaseStorage`, src/server/index.ts)

Rows live in lists; generated identity columns are modelled with explicit
counters.  Each operation mirrors the drizzle query of the corresponding
`DatabaseStorage` method, including its `WHERE` scoping — in particular,
`getMessages` filters by conversation id only, with no shop condition. -/

structure Store where
  shops : List Shop
  products : List Product
  conversations : List Conversation
  messages : List Message
  orders : List Order
  nextConversationId : Nat
  nextMessageId : Nat
  nextOrderId : Nat
deriving DecidableEq, Repr

def Store.getShop (s : Store) (id : Nat) : Option Shop :=
  s.shops.find? (fun sh => sh.id = id)

/-- `getProducts`: all rows of the shop (the `orderBy createdAt desc` of the
source only permutes rows; insertion order is kept here). -/
def Store.getProducts (s : Store) (shopId : Nat) : List Product :=
  s.products.filter (fun p => p.shopId = shopId)

/-- `updateProduct`: apply `data` to the row matching both id and shop id. -/
def Store.updateProduct (s : Store) (id shopId : Nat) (data : ProductPatch) : Store :=
  { s with
    products := s.products.map (fun p =>
      if p.id = id ∧ p.shopId = shopId then applyProductPatch data p else p) }

def Store.getConversation (s : Store) (id shopId : Nat) : Option Conversation :=
  s.conversations.find? (fun c => c.id = id ∧ c.shopId = shopId)

/-- `getConversationByCustomerId`: rows matching customer id and shop id,
`ORDER BY id DESC LIMIT 1` — the conversation with the greatest id. -/
def Store.getConversationByCustomerId (s : Store) (customerId : String) (shopId : Nat) :
    Option Conversation :=
  (s.conversations.filter (fun c => c.customerId = customerId ∧ c.shopId = shopId)).foldl
    (fun best c =>
      match best with
      | none => some c
      | some b => if b.id < c.id then some c else some b)
    none

/-- `createConversation` as invoked by the webhook handler: status `active`,
schema defaults for `pausedForHuman` (false), `customerName` (null) and
`lastMessageAt` (now). -/
def Store.createConversation (s : Store) (shopId : Nat) (customerId platform : String)
    (now : Nat) : Store × Conversation :=
  let c : Conversation :=
    { id := s.nextConversationId, shopId := shopId, customerId := customerId,
      customerName := none, platform := platform, status := "active",
      pausedForHuman := false, lastMessageAt := now }
  ({ s with conversations := s.conversations ++ [c],
            nextConversationId := s.nextConversationId + 1 }, c)

def Store.updateConversation (s : Store) (id shopId : Nat) (data : ConversationPatch) : Store :=
  { s with
    conversations := s.conversations.map (fun c =>
      if c.id = id ∧ c.shopId = shopId then applyConversationPatch data c else c) }

/-- `getMessages(conversationId)`: filtered by conversation id ONLY — the
query carries no shop condition (src/server/index.ts lines 973-979).
Insertion order coincides with the `orderBy createdAt` of the source. -/
def Store.getMessages (s : Store) (conversationId : Nat) : List Message :=
  s.messages.filter (fun m => m.conversationId = conversationId)

def Store.createMessage (s : Store) (conversationId : Nat) (role content : String) :
    Store × Message :=
  let m : Message :=
    { id := s.nextMessageId, conversationId := conversationId, role := role,
      content := content, createdAt := s.nextMessageId }
  ({ s with messages := s.messages ++ [m], nextMessageId := s.nextMessageId + 1 }, m)

def Store.createOrder (s : Store) (o : Order) : Store :=
  { s with orders := s.orders ++ [o], nextOrderId := s.nextOrderId + 1 }

/-! ## Order Extraction Heuristic
(`maybeCreateOrderFromConversation`, src/server/routes.ts lines 99-184) -/

def ORDER_CONFIRMATION_KEYWORDS : List String :=
  ["processing", "order", "confirmed", "completed", "successfully"]

/-- Guard 1: the lower-cased AI reply contains a confirmation keyword. -/
def hasOrderConfirmation (aiResponse : String) : Bool :=
  ORDER_CONFIRMATION_KEYWORDS.any (fun keyword => strIncludes (strLower aiResponse) keyword)

/-- Guard 2: `productsList.find(...)` — first product whose lower-cased name
occurs in the recent customer text or in the lower-cased AI reply. -/
def mentionedProductIn (productsList : List Product) (recentUserMessages aiResponse : String) :
    Option Product :=
  productsList.find? (fun product =>
    strIncludes (strLower recentUserMessages) (strLower product.name)
      || strIncludes (strLower aiResponse) (strLower product.name))

/-- Requested quantity: the `(\d+)\s*(?:units?|items?|pieces?)` capture,
defaulting to 1 when the pattern does not match. -/
def extractedQuantity (recentUserMessages : String) : Nat :=
  (quantityMatchScan recentUserMessages.toList).getD 1

/-- `JS truthiness of conversation.customerName || "Customer"`: null and the
empty string both fall through to the literal. -/
def fallbackCustomerName (stored : Option String) : String :=
  match stored with
  | some n => if n = "" then "Customer" else n
  | none => "Customer"

structure OrderParams where
  shopId : Nat
  conversation : Conversation
  productsList : List Product
  aiResponse : String
  intent : IntentType
  recentUserMessages : String
  platform : Option String
deriving Repr

/-- `maybeCreateOrderFromConversation`: runs only for `order` intent; checks
the confirmation keyword, product mention, stock-sufficiency and numeric
guards in source order, each early `return` leaving the store untouched; on
success persists the order, decrements the product's stock by the requested
quantity and backfills the conversation's customer name when it was empty.
The WebSocket broadcast carries no persistent state and is elided. -/
def maybeCreateOrderFromConversation (p : OrderParams) (store : Store) : Store × Option Order :=
  if p.intent ≠ IntentType.order then (store, none)
  else if ¬ hasOrderConfirmation p.aiResponse then (store, none)
  else
    let customerName :=
      match nameMatchScan p.recentUserMessages.toList with
      | some captured => strTrim captured
      | none => fallbackCustomerName p.conversation.customerName
    let customerPhone :=
      match phoneMatchScan p.recentUserMessages.toList with
      | some captured => strTrim captured
      | none => p.conversation.customerId
    let quantity := extractedQuantity p.recentUserMessages
    match mentionedProductIn p.productsList p.recentUserMessages p.aiResponse with
    | none => (store, none)
    | some mentionedProduct =>
      if mentionedProduct.stock < (quantity : Int) then (store, none)
      else
        match mentionedProduct.price, mentionedProduct.cost with
        | some unitPrice, some unitCost =>
          let revenue := unitPrice * (quantity : ℚ)
          let profit := revenue - unitCost * (quantity : ℚ)
          let order : Order :=
            { id := store.nextOrderId, shopId := p.shopId,
              productId := some mentionedProduct.id, productName := mentionedProduct.name,
              quantity := quantity, price := unitPrice, cost := unitCost,
              revenue := revenue, profit := profit,
              customerName := customerName, customerPhone := some customerPhone,
              platform :=
                match p.platform with
                | some pl => if pl = "" then p.conversation.platform else pl
                | none => p.conversation.platform,
              status := "pending" }
          let store1 := store.createOrder order
          let store2 := store1.updateProduct mentionedProduct.id p.shopId
            { emptyProductPatch with stock := some (mentionedProduct.stock - (quantity : Int)) }
          let store3 :=
            if p.conversation.customerName.getD "" = "" ∧ customerName ≠ "" then
              store2.updateConversation p.conversation.id p.shopId
                { emptyConversationPatch with customerName := some customerName }
            else store2
          (store3, some order)
        | _, _ => (store, none)

/-! ## Webhook-driven path (`handleMetaMessage`, src/server/routes.ts
lines 769-849) -/

/-- `slice(-3)`: the last `n` elements of a list. -/
def lastN (n : Nat) (l : List α) : List α :=
  l.drop (l.length - n)

/-- The fixed hand-off sentence of the dashboard path. -/
def handoffSentence : String :=
  "I understand you'd like to speak with a human. Let me connect you with our team. Someone will contact you shortly."

structure MetaPayload where
  text : String
  platform : String
  customerId : String
  shopId : Nat
deriving Repr

structure MetaOutcome where
  store : Store
  generatorCalls : Nat
  sentViaMeta : List (String × String)
  createdOrder : Option Order
deriving Repr

/-- `handleMetaMessage`: drop blank text; load (most recent) or create the
conversation; persist the inbound `user` message; load catalog and history;
invoke the Response Generator (always — the function contains no check of
`status`/`pausedForHuman` and no `human_request` branch); persist the reply;
bump `lastMessageAt`; deliver the reply via `sendMetaMessage`; classify the
intent and run the Order Extraction Heuristic over the last three customer
messages.  The generator's return value enters as the `aiReply` parameter and
each generator invocation is counted in the outcome. -/
def handleMetaMessage (store : Store) (payload : MetaPayload) (aiReply : String) (now : Nat) :
    MetaOutcome :=
  if strTrim payload.text = "" then ⟨store, 0, [], none⟩
  else
    let found := store.getConversationByCustomerId payload.customerId payload.shopId
    let pair :=
      match found with
      | some c => (store, c)
      | none => store.createConversation payload.shopId payload.customerId payload.platform now
    let store1 := pair.1
    let conversation := pair.2
    let store2 := (store1.createMessage conversation.id "user" payload.text).1
    let productsList := store2.getProducts payload.shopId
    let messageHistory := store2.getMessages conversation.id
    -- generateAIResponse is called here with the shop profile, catalog and
    -- history as prompt context; its value is the aiReply parameter
    let store3 := (store2.createMessage conversation.id "assistant" aiReply).1
    let store4 := store3.updateConversation conversation.id payload.shopId
      { emptyConversationPatch with lastMessageAt := some now }
    -- sendMetaMessage(customerId, aiResponse, platform) delivers aiReply
    let intent := parseIntent payload.text
    let lastUserMessages :=
      String.intercalate " "
        (lastN 3 ((messageHistory.filter (fun m => m.role = "user")).map (fun m => m.content)))
    let run := maybeCreateOrderFromConversation
      { shopId := payload.shopId, conversation := conversation,
        productsList := productsList, aiResponse := aiReply, intent := intent,
        recentUserMessages := lastUserMessages, platform := some payload.platform }
      store4
    ⟨run.1, 1, [(payload.customerId, aiReply)], run.2⟩

/-! ## Dashboard-driven path (`POST /api/conversations/:id/messages`,
src/server/routes.ts lines 1054-1160) -/

structure AuthUser where
  id : Nat
  shopId : Nat
  role : String
deriving DecidableEq, Repr

inductive SendResult where
  /-- HTTP 404 `Conversation not found`. -/
  | notFound
  /-- HTTP 400 `Conversation is paused for human support`. -/
  | pausedRejected
  /-- HTTP 200 `Conversation paused for human support` (hand-off branch). -/
  | humanRequestPaused
  /-- HTTP 200 `Message sent successfully`. -/
  | sent
deriving DecidableEq, Repr

structure ApiMessageOutcome where
  store : Store
  result : SendResult
  generatorCalls : Nat
deriving Repr

/-- The dashboard send-message route: shop-scoped conversation lookup;
explicit rejection while `pausedForHuman`; on a `human_request`
classification persist the fixed hand-off sentence, pause the conversation
and bump `lastMessageAt` without calling the Response Generator; otherwise
generate a reply, persist it, run the Order Extraction Heuristic over the
last three customer messages of the full history and bump `lastMessageAt`. -/
def postConversationMessage (store : Store) (user : AuthUser) (conversationIdParam : Nat)
    (content : String) (aiReply : String) (now : Nat) : ApiMessageOutcome :=
  match store.getConversation conversationIdParam user.shopId with
  | none => ⟨store, .notFound, 0⟩
  | some conversation =>
    if conversation.pausedForHuman then ⟨store, .pausedRejected, 0⟩
    else
      let store1 := (store.createMessage conversationIdParam "user" content).1
      -- wsManager broadcast of the received message carries no state
      let intent := parseIntent content
      if intent = IntentType.human_request then
        let store2 := store1.updateConversation conversationIdParam user.shopId
          { emptyConversationPatch with pausedForHuman := some true, status := some "paused" }
        let store3 := (store2.createMessage conversationIdParam "assistant" handoffSentence).1
        let store4 := store3.updateConversation conversationIdParam user.shopId
          { emptyConversationPatch with lastMessageAt := some now }
        ⟨store4, .humanRequestPaused, 0⟩
      else
        let productsList := store1.getProducts user.shopId
        -- generateAIResponse is called here (one generator invocation); its
        -- value is the aiReply parameter
        let store2 := (store1.createMessage conversationIdParam "assistant" aiReply).1
        let fullHistory := store2.getMessages conversationIdParam
        let lastUserMessages :=
          String.intercalate " "
            (lastN 3 ((fullHistory.filter (fun m => m.role = "user")).map (fun m => m.content)))
        let run := maybeCreateOrderFromConversation
          { shopId := user.shopId, conversation := conversation,
            productsList := productsList, aiResponse := aiReply, intent := intent,
            recentUserMessages := lastUserMessages, platform := some conversation.platform }
          store2
        let store3 := run.1.updateConversation conversationIdParam user.shopId
          { emptyConversationPatch with lastMessageAt := some now }
        ⟨store3, .sent, 1⟩

/-! ## Remaining routes the claims touch -/

/-- `GET /api/conversations/:id/messages` (src/server/routes.ts lines
1045-1052): behind `requireAuth`, but the handler passes only the raw
`:id` parameter to `storage.getMessages` — `user.shopId` is never consulted
and no ownership check of the conversation happens. -/
def getConversationMessagesRoute (store : Store) (user : AuthUser) (idParam : Nat) :
    List Message :=
  store.getMessages idParam

/-- `PUT /api/products/:id` (src/server/routes.ts lines 322-334): forwards
`req.body` to `storage.updateProduct` scoped by the caller's shop, with no
validation of the submitted values. -/
def putProductRoute (store : Store) (user : AuthUser) (idParam : Nat) (body : ProductPatch) :
    Store :=
  store.updateProduct idParam user.shopId body

/-! ## Meta webhook POST signature gate (src/server/routes.ts lines 664-692)

`crypto.createHmac('sha256', secret).update(rawBody).digest('hex')` is the
external crypto primitive; it enters as the function parameter `hmacHex`
from secret and raw body to the hex digest. -/

inductive WebhookReply where
  | status403
  | status400
  | status200
deriving DecidableEq, Repr

structure MetaPostOutcome where
  reply : WebhookReply
  /-- Whether control reached the entry-processing loop (the Orchestrator
  logic, modelled separately by `handleMetaMessage`). -/
  handledEntries : Bool
deriving DecidableEq, Repr

/-- The verification prologue of `POST /api/webhooks/meta`: with a configured
`META_APP_SECRET`, a missing signature header is 403, an unavailable raw body
is 400, a header different from `"sha256=" + HMAC_SHA256(rawBody, secret)` is
403; only the exact expected header reaches message handling.  Without a
configured secret no verification happens. -/
def metaWebhookPost (hmacHex : String → String → String) (appSecret : Option String)
    (signatureHeader : Option String) (rawBody : Option String) : MetaPostOutcome :=
  match appSecret with
  | some appSecretValue =>
    match signatureHeader with
    | none => ⟨.status403, false⟩
    | some signature =>
      match rawBody with
      | none => ⟨.status400, false⟩
      | some body =>
        let expectedSignature := "sha256=" ++ hmacHex appSecretValue body
        if signature ≠ expectedSignature then ⟨.status403, false⟩
        else ⟨.status200, true⟩
  | none => ⟨.status200, true⟩

/-! ## Concrete scenarios used by the claim theorems -/

def c1Conversation : Conversation :=
  { id := 1, shopId := 1, customerId := "c-9", customerName := some "Bob",
    platform := "whatsapp", status := "paused", pausedForHuman := true, lastMessageAt := 0 }

def c1Store : Store :=
  { shops := [{ id := 1, name := "Acme", businessType := "product" }], products := [],
    conversations := [c1Conversation], messages := [], orders := [],
    nextConversationId := 2, nextMessageId := 1, nextOrderId := 1 }

def c1Payload : MetaPayload :=
  { text := "hello", platform := "whatsapp", customerId := "c-9", shopId := 1 }

/-- Claim C1.  For every inbound webhook-driven message addressed to a paused
conversation (`pausedForHuman = true`), the handler stops after persisting the
inbound message: no Response Generator call, no agent reply, no order
extraction.  The code has no such branch: `handleMetaMessage` never reads
`status`/`pausedForHuman`, so on a paused conversation it still invokes the
generator once, persists the generated reply as an `assistant` message, bumps
`lastMessageAt` and falls through to the Order Extraction Heuristic. -/
theorem c1_paused_webhook_still_generates :
    c1Conversation.pausedForHuman = true ∧ c1Conversation.status = "paused"
    ∧ (handleMetaMessage c1Store c1Payload "AI says hi" 42).generatorCalls = 1
    ∧ ((handleMetaMessage c1Store c1Payload "AI says hi" 42).store.messages.map
        (fun m => (m.role, m.content)))
      = [("user", "hello"), ("assistant", "AI says hi")]
    ∧ (handleMetaMessage c1Store c1Payload "AI says hi" 42).sentViaMeta = [("c-9", "AI says hi")] := by
  decide

def c2dConversation : Conversation :=
  { id := 1, shopId := 1, customerId := "visitor-4", customerName := some "Dana",
    platform := "chat", status := "active", pausedForHuman := false, lastMessageAt := 0 }

def c2dStore : Store :=
  { shops := [{ id := 1, name := "Acme", businessType := "product" }], products := [],
    conversations := [c2dConversation], messages := [], orders := [],
    nextConversationId := 2, nextMessageId := 1, nextOrderId := 1 }

def c2dUser : AuthUser := { id := 7, shopId := 1, role := "owner" }

def c2wConversation : Conversation :=
  { id := 1, shopId := 1, customerId := "wa-5", customerName := some "Omar",
    platform := "whatsapp", status := "active", pausedForHuman := false, lastMessageAt := 0 }

def c2wStore : Store :=
  { shops := [{ id := 1, name := "Acme", businessType := "product" }], products := [],
    conversations := [c2wConversation], messages := [], orders := [],
    nextConversationId := 2, nextMessageId := 1, nextOrderId := 1 }

def c2wPayload : MetaPayload :=
  { text := "I want to talk to a human", platform := "whatsapp", customerId := "wa-5", shopId := 1 }

/-- Claim C2.  The claimed hand-off behaviour on a `human_request`
classification (persist the fixed hand-off sentence, set
`pausedForHuman`/`status = paused`, bump last activity, skip the Response
Generator) holds on the dashboard path — but the claim extends it to the
webhook path as shared Orchestrator behaviour, and `handleMetaMessage`
contains no `human_request` branch at all: on the same customer text it calls
the generator once, persists the generated reply instead of the hand-off
sentence, and leaves the conversation un-paused. -/
theorem c2_human_request_paths_diverge :
    parseIntent "I want to talk to a human" = IntentType.human_request
    ∧ (let r := postConversationMessage c2dStore c2dUser 1 "I want to talk to a human" "UNUSED" 42
       r.result = SendResult.humanRequestPaused ∧ r.generatorCalls = 0
       ∧ r.store.conversations
           = [{ c2dConversation with pausedForHuman := true, status := "paused", lastMessageAt := 42 }]
       ∧ (r.store.messages.map (fun m => (m.role, m.content)))
           = [("user", "I want to talk to a human"), ("assistant", handoffSentence)])
    ∧ (let w := handleMetaMessage c2wStore c2wPayload "Sure, how can I help?" 42
       w.generatorCalls = 1
       ∧ (w.store.conversations.map Conversation.pausedForHuman) = [false]
       ∧ (w.store.conversations.map Conversation.status) = ["active"]
       ∧ (w.store.messages.map (fun m => (m.role, m.content)))
           = [("user", "I want to talk to a human"), ("assistant", "Sure, how can I help?")]) := by
  decide

def c3Widget : Product :=
  { id := 1, shopId := 1, name := "Widget", price := some 10, cost := some 4,
    stock := 5, active := true }

def c3Conversation : Conversation :=
  { id := 1, shopId := 1, customerId := "cust-77", customerName := none,
    platform := "whatsapp", status := "active", pausedForHuman := false, lastMessageAt := 0 }

def c3Store : Store :=
  { shops := [{ id := 1, name := "Acme", businessType := "product" }], products := [c3Widget],
    conversations := [c3Conversation], messages := [], orders := [],
    nextConversationId := 2, nextMessageId := 1, nextOrderId := 1 }

def c3Params : OrderParams :=
  { shopId := 1, conversation := c3Conversation, productsList := [c3Widget],
    aiResponse := "Great! We are processing your order now.", intent := .order,
    recentUserMessages := "I want to order 3 widgets, name is Sara, phone is 555-1234",
    platform := some "whatsapp" }

/-- Claim C3, counterexample.  On exactly the claimed inputs — Widget in
stock 5, recent text `I want to order 3 widgets, name is Sara, phone is
555-1234`, AI reply containing `processing your order`, intent `order` — the
heuristic does NOT produce quantity 3 or stock 2: the quantity regex
`/(\d+)\s*(?:units?|items?|pieces?)/i` does not match `3 widgets`, so the
default quantity 1 applies and stock becomes 4. -/
theorem c3_counterexample :
    c3Widget.stock = 5
    ∧ strIncludes c3Params.aiResponse "processing your order" = true
    ∧ c3Params.intent = IntentType.order
    ∧ (maybeCreateOrderFromConversation c3Params c3Store).2.map Order.quantity ≠ some 3
    ∧ ((maybeCreateOrderFromConversation c3Params c3Store).1.products.map Product.stock) ≠ [2] := by
  decide

/-- Claim C3, amended.  Same scenario: the heuristic creates the Order with
quantity 1 (default — `3 widgets` does not match the
`<number> (unit|item|piece)s?` pattern), customerName `Sara`, customerPhone
`555-1234`, revenue = 1 × price, profit = revenue − 1 × cost, decrements
Widget's stock to 4, and backfills the conversation's empty customer name. -/
theorem c3_amended_order_extraction :
    ∃ o, (maybeCreateOrderFromConversation c3Params c3Store).2 = some o
      ∧ o.productName = "Widget"
      ∧ o.quantity = 1
      ∧ o.customerName = "Sara"
      ∧ o.customerPhone = some "555-1234"
      ∧ o.price = 10
      ∧ o.cost = 4
      ∧ o.revenue = o.price * (o.quantity : ℚ)
      ∧ o.profit = o.revenue - o.cost * (o.quantity : ℚ)
      ∧ (maybeCreateOrderFromConversation c3Params c3Store).1.products.map Product.stock = [4]
      ∧ (maybeCreateOrderFromConversation c3Params c3Store).1.conversations.map
          Conversation.customerName = [some "Sara"] := by
  refine ⟨_, rfl, by decide, by decide, by decide, by decide, by decide, by decide, rfl, rfl,
    by decide, by decide⟩

def c4User : AuthUser := { id := 1, shopId := 1, role := "owner" }

def c4ConvShop1 : Conversation :=
  { id := 1, shopId := 1, customerId := "a-1", customerName := none, platform := "chat",
    status := "active", pausedForHuman := false, lastMessageAt := 0 }

def c4ConvShop2 : Conversation :=
  { id := 2, shopId := 2, customerId := "b-2", customerName := none, platform := "chat",
    status := "active", pausedForHuman := false, lastMessageAt := 0 }

def c4SecretMessage : Message :=
  { id := 1, conversationId := 2, role := "user", content := "tenant-two confidential", createdAt := 1 }

def c4Store : Store :=
  { shops := [{ id := 1, name := "Acme", businessType := "product" },
              { id := 2, name := "Globex", businessType := "product" }],
    products := [], conversations := [c4ConvShop1, c4ConvShop2],
    messages := [c4SecretMessage], orders := [],
    nextConversationId := 3, nextMessageId := 2, nextOrderId := 1 }

/-- Claim C4.  Tenant-scoped operations must never return another tenant's
rows, and in particular reading a conversation's messages through the public
API must not expose another tenant's messages.  The code violates this:
`GET /api/conversations/:id/messages` passes the raw `:id` to
`storage.getMessages`, whose query filters by conversation id only, so an
authenticated shop-1 user requesting conversation 2 (owned by shop 2, not
visible through the shop-scoped `getConversation`) receives shop 2's
messages. -/
theorem c4_cross_tenant_messages_leak :
    c4User.shopId = 1
    ∧ c4ConvShop2.shopId = 2
    ∧ Store.getConversation c4Store 2 c4User.shopId = none
    ∧ getConversationMessagesRoute c4Store c4User 2 = [c4SecretMessage]
    ∧ c4SecretMessage.conversationId = c4ConvShop2.id := by
  decide

def c6Widget : Product :=
  { id := 1, shopId := 1, name := "Widget", price := some 10, cost := some 4,
    stock := 5, active := true }

def c6Store : Store :=
  { shops := [{ id := 1, name := "Acme", businessType := "product" }], products := [c6Widget],
    conversations := [], messages := [], orders := [],
    nextConversationId := 1, nextMessageId := 1, nextOrderId := 1 }

def c6User : AuthUser := { id := 1, shopId := 1, role := "owner" }

/-- Claim C6, counterexample.  `PUT /api/products/:id` forwards the request
body to `updateProduct` without validating it, so a dashboard update can set
a product's stock to −5: the claimed "no operation can set stock below zero"
fails on the product-update path. -/
theorem c6_counterexample :
    ((putProductRoute c6Store c6User 1 { emptyProductPatch with stock := some (-5) }).products.map
      Product.stock) = [-5]
    ∧ ¬ (0 : Int) ≤ -5 := by
  decide

/-- Claim C9.  With a shared signing secret configured, a webhook POST whose
signature header is absent, or differs from `"sha256=" + HMAC_SHA256(rawBody,
secret)` in hex, is rejected with HTTP 403 before any message handling runs;
the correct signature is processed.  Stated for every HMAC function, secret,
raw body and header value. -/
theorem c9_signature_gate (hmacHex : String → String → String) (secret body sig : String) :
    metaWebhookPost hmacHex (some secret) none (some body)
        = { reply := .status403, handledEntries := false }
    ∧ (sig ≠ "sha256=" ++ hmacHex secret body →
        metaWebhookPost hmacHex (some secret) (some sig) (some body)
          = { reply := .status403, handledEntries := false })
    ∧ metaWebhookPost hmacHex (some secret) (some ("sha256=" ++ hmacHex secret body)) (some body)
        = { reply := .status200, handledEntries := true } := by
  refine ⟨rfl, ?_, ?_⟩
  · intro h
    simp [metaWebhookPost, h]
  · simp [metaWebhookPost]

/-- Claim C9, witness: a concrete HMAC function, secret and body, with a
wrong signature rejected as 403 before handling. -/
theorem c9_witness :
    metaWebhookPost (fun s b => s ++ b) (some "k1") (some "sha256=bogus") (some "payload")
      = { reply := .status403, handledEntries := false } :=
  (c9_signature_gate (fun s b => s ++ b) "k1" "payload" "sha256=bogus").2.1 (by decide)

/-- Claim C10.  `parseIntent` matches keywords by substring containment on
the lower-cased text, not by word boundaries: any text containing a
human-request keyword (English or Arabic) classifies as `human_request`, and
any text containing an order keyword but no human-request keyword classifies
as `order` — even when the keyword occurs inside a longer word. -/
theorem c10_substring_intent (message : String) :
    ((includesKeyword englishHumanKeywords (strLower message)
        || includesKeyword arabicHumanKeywords (strLower message)) = true →
      parseIntent message = IntentType.human_request)
    ∧ ((includesKeyword englishOrderKeywords (strLower message)
        || includesKeyword arabicOrderKeywords (strLower message)) = true →
       (includesKeyword englishHumanKeywords (strLower message)
        || includesKeyword arabicHumanKeywords (strLower message)) = false →
      parseIntent message = IntentType.order) := by
  constructor
  · intro h
    simp [parseIntent, h]
  · intro h hnot
    simp [parseIntent, h, hnot]

/-- Claim C10, witness: `agents` contains the human keyword `agent` inside a
longer word and classifies as `human_request`; `border` contains the order
keyword `order` inside a longer word, contains no human keyword, and
classifies as `order`. -/
theorem c10_witness :
    parseIntent "agents" = IntentType.human_request
    ∧ parseIntent "border" = IntentType.order :=
  ⟨(c10_substring_intent "agents").1 (by decide),
   (c10_substring_intent "border").2 (by decide) (by decide)⟩

/-- One-step unfolding of the retry loop: a successful attempt returns the
text with no further delay. -/
theorem retry_unfold_ok (backend : Nat → Except String String) (k : Nat) (s : String)
    (hk : backend k = .ok s) :
    callModelWithRetryFrom backend k = { outcome := .ok s, attemptsUsed := k, delays := [] } := by
  rw [callModelWithRetryFrom, hk]

/-- One-step unfolding of the retry loop: a failed attempt at or past the
retry limit rethrows without delaying. -/
theorem retry_unfold_stop (backend : Nat → Except String String) (k : Nat) (e : String)
    (hk : backend k = .error e) (h : AI_MAX_RETRIES ≤ k) :
    callModelWithRetryFrom backend k
      = { outcome := .error e, attemptsUsed := k, delays := [] } := by
  rw [callModelWithRetryFrom, hk]
  simp [h]

/-- One-step unfolding of the retry loop: a failed attempt below the retry
limit sleeps `500 * 2 ^ (k - 1)` ms and retries. -/
theorem retry_unfold_step (backend : Nat → Except String String) (k : Nat) (e : String)
    (hk : backend k = .error e) (h : k < AI_MAX_RETRIES) :
    callModelWithRetryFrom backend k
      = { outcome := (callModelWithRetryFrom backend (k + 1)).outcome,
          attemptsUsed := (callModelWithRetryFrom backend (k + 1)).attemptsUsed,
          delays := AI_RETRY_BASE_DELAY_MS * 2 ^ (k - 1)
                      :: (callModelWithRetryFrom backend (k + 1)).delays } := by
  have hn : ¬ AI_MAX_RETRIES ≤ k := by omega
  rw [callModelWithRetryFrom, hk]
  simp [hn]

/-- Full evaluation of the retry loop when the first three attempts all
fail: the final error propagates after delays of 500 and 1000 ms. -/
theorem retry_all_failed (backend : Nat → Except String String) (a b c : String)
    (h1 : backend 1 = .error a) (h2 : backend 2 = .error b) (h3 : backend 3 = .error c) :
    callModelWithRetryFrom backend 1
      = { outcome := .error c, attemptsUsed := 3, delays := [500, 1000] } := by
  have heq3 := retry_unfold_stop backend 3 c h3 (by norm_num [AI_MAX_RETRIES])
  have heq2 := retry_unfold_step backend 2 b h2 (by norm_num [AI_MAX_RETRIES])
  have heq1 := retry_unfold_step backend 1 a h1 (by norm_num [AI_MAX_RETRIES])
  rw [heq3] at heq2
  rw [heq2] at heq1
  rw [heq1]
  norm_num [AI_RETRY_BASE_DELAY_MS]

/-- Full evaluation of the retry loop when the first two attempts fail and
the third succeeds. -/
theorem retry_third_succeeds (backend : Nat → Except String String) (a b s : String)
    (h1 : backend 1 = .error a) (h2 : backend 2 = .error b) (h3 : backend 3 = .ok s) :
    callModelWithRetryFrom backend 1
      = { outcome := .ok s, attemptsUsed := 3, delays := [500, 1000] } := by
  have heq3 := retry_unfold_ok backend 3 s h3
  have heq2 := retry_unfold_step backend 2 b h2 (by norm_num [AI_MAX_RETRIES])
  have heq1 := retry_unfold_step backend 1 a h1 (by norm_num [AI_MAX_RETRIES])
  rw [heq3] at heq2
  rw [heq2] at heq1
  rw [heq1]
  norm_num [AI_RETRY_BASE_DELAY_MS]

/-- Claim C7.  `generateAIResponse` never raises and never returns an empty
string: when every retry attempt fails it returns the fixed apologetic
fallback, and when the backend succeeds with an empty or whitespace-only
result it returns the fixed "trouble responding" fallback. -/
theorem c7_fallback_contract (backend : Nat → Except String String) :
    generateAIResponse backend ≠ ""
    ∧ (∀ a b c, backend 1 = .error a → backend 2 = .error b → backend 3 = .error c →
        generateAIResponse backend = technicalDifficultiesFallback)
    ∧ (∀ s, (callModelWithRetryFrom backend 1).outcome = .ok s → strTrim s = "" →
        generateAIResponse backend = troubleRespondingFallback) := by
  refine ⟨?_, ?_, ?_⟩
  · unfold generateAIResponse
    cases h : (callModelWithRetryFrom backend 1).outcome with
    | error e => simp [technicalDifficultiesFallback]
    | ok aiText =>
      by_cases ht : strTrim aiText = "" <;> simp [ht, troubleRespondingFallback]
  · intro a b c h1 h2 h3
    unfold generateAIResponse
    rw [retry_all_failed backend a b c h1 h2 h3]
  · intro s hok ht
    unfold generateAIResponse
    rw [hok]
    simp [ht]

/-- Claim C7, witness: an always-failing backend yields the apologetic
fallback; a backend succeeding with a whitespace-only string yields the
"trouble responding" fallback; both are non-empty. -/
theorem c7_witness :
    generateAIResponse (fun _ => .error "backend down") = technicalDifficultiesFallback
    ∧ generateAIResponse (fun _ => .ok "   ") = troubleRespondingFallback
    ∧ generateAIResponse (fun _ => .error "backend down") ≠ "" :=
  ⟨(c7_fallback_contract (fun _ => .error "backend down")).2.1
      "backend down" "backend down" "backend down" rfl rfl rfl,
   (c7_fallback_contract (fun _ => .ok "   ")).2.2 "   "
      (by rw [callModelWithRetryFrom]) (by decide),
   (c7_fallback_contract (fun _ => .error "backend down")).1⟩

/-- Claim C8.  The backend is attempted at most 3 times, the delays slept
between failed attempts follow the exponential schedule 500, 1000 (, 2000) ms
— each slept delay is the corresponding prefix element of that schedule — and
a backend failing its first two attempts and succeeding on the third yields
exactly that successful value with no exception, after sleeping 500 and
1000 ms. -/
theorem c8_retry_schedule (backend : Nat → Except String String) :
    (callModelWithRetryFrom backend 1).attemptsUsed ≤ 3
    ∧ (callModelWithRetryFrom backend 1).delays
        = List.take ((callModelWithRetryFrom backend 1).attemptsUsed - 1) [500, 1000, 2000]
    ∧ (∀ a b s, backend 1 = .error a → backend 2 = .error b → backend 3 = .ok s →
        (callModelWithRetryFrom backend 1).outcome = .ok s
        ∧ (callModelWithRetryFrom backend 1).delays = [500, 1000]) := by
  cases h1 : backend 1 with
  | ok s₁ =>
    rw [retry_unfold_ok backend 1 s₁ h1]
    refine ⟨by simp, by simp, ?_⟩
    intro a b s ha _ _
    simp at ha
  | error a =>
    cases h2 : backend 2 with
    | ok s₂ =>
      have heq2 := retry_unfold_ok backend 2 s₂ h2
      have heq1 := retry_unfold_step backend 1 a h1 (by norm_num [AI_MAX_RETRIES])
      rw [heq2] at heq1
      rw [heq1]
      refine ⟨by simp, by simp [AI_RETRY_BASE_DELAY_MS], ?_⟩
      intro a' b s _ hb _
      simp at hb
    | error b =>
      cases h3 : backend 3 with
      | ok s₃ =>
        rw [retry_third_succeeds backend a b s₃ h1 h2 h3]
        refine ⟨by simp, by simp, ?_⟩
        intro a' b' s _ _ hb3
        cases hb3
        exact ⟨rfl, rfl⟩
      | error c =>
        rw [retry_all_failed backend a b c h1 h2 h3]
        refine ⟨by simp, by simp, ?_⟩
        intro a' b' s _ _ hb3
        simp at hb3

/-- Claim C8, witness: a backend failing its first two attempts and
succeeding on the third yields that value after delays of 500 and 1000 ms,
within 3 attempts. -/
theorem c8_witness :
    (callModelWithRetryFrom (fun k => if 3 ≤ k then .ok "All good" else .error "down") 1).attemptsUsed ≤ 3
    ∧ (callModelWithRetryFrom (fun k => if 3 ≤ k then .ok "All good" else .error "down") 1).outcome
        = .ok "All good"
    ∧ (callModelWithRetryFrom (fun k => if 3 ≤ k then .ok "All good" else .error "down") 1).delays
        = [500, 1000] := by
  have h := c8_retry_schedule (fun k => if 3 ≤ k then .ok "All good" else .error "down")
  have h3 := h.2.2 "down" "down" "All good" (by simp) (by simp) (by simp)
  exact ⟨h.1, h3.1, h3.2⟩

/-- Claim C5.  The Order Extraction Heuristic creates an order exactly when
all guard conditions hold — intent `order`, a confirmation keyword in the AI
reply, a mentioned catalog product, requested quantity not exceeding its
stock, and price/cost converting to numbers — and whenever it creates no
order it leaves the store (in particular every stock level) untouched. -/
theorem c5_guard_characterization (p : OrderParams) (store : Store) :
    ((maybeCreateOrderFromConversation p store).2 = none →
      (maybeCreateOrderFromConversation p store).1 = store)
    ∧ ((maybeCreateOrderFromConversation p store).2.isSome = true ↔
        (p.intent = IntentType.order
         ∧ hasOrderConfirmation p.aiResponse = true
         ∧ ∃ m, mentionedProductIn p.productsList p.recentUserMessages p.aiResponse = some m
             ∧ ¬ m.stock < (extractedQuantity p.recentUserMessages : Int)
             ∧ m.price.isSome = true ∧ m.cost.isSome = true)) := by
  by_cases hIntent : p.intent = IntentType.order
  case neg =>
    constructor
    · intro _
      simp [maybeCreateOrderFromConversation, hIntent]
    · simp [maybeCreateOrderFromConversation, hIntent]
  cases hConf : hasOrderConfirmation p.aiResponse with
  | false =>
    constructor
    · intro _
      simp [maybeCreateOrderFromConversation, hIntent, hConf]
    · simp [maybeCreateOrderFromConversation, hIntent, hConf]
  | true =>
    cases hMention : mentionedProductIn p.productsList p.recentUserMessages p.aiResponse with
    | none =>
      constructor
      · intro _
        simp [maybeCreateOrderFromConversation, hIntent, hConf, hMention]
      · simp [maybeCreateOrderFromConversation, hIntent, hConf, hMention]
    | some m =>
      by_cases hStock : m.stock < (extractedQuantity p.recentUserMessages : Int)
      case pos =>
        constructor
        · intro _
          simp [maybeCreateOrderFromConversation, hIntent, hConf, hMention, hStock]
        · simp [maybeCreateOrderFromConversation, hIntent, hConf, hMention, hStock]
      cases hPrice : m.price with
      | none =>
        constructor
        · intro _
          simp [maybeCreateOrderFromConversation, hIntent, hConf, hMention, hStock, hPrice]
        · simp [maybeCreateOrderFromConversation, hIntent, hConf, hMention, hStock, hPrice]
      | some unitPrice =>
        cases hCost : m.cost with
        | none =>
          constructor
          · intro _
            simp [maybeCreateOrderFromConversation, hIntent, hConf, hMention, hStock, hPrice, hCost]
          · simp [maybeCreateOrderFromConversation, hIntent, hConf, hMention, hStock, hPrice, hCost]
        | some unitCost =>
          constructor
          · intro hnone
            simp [maybeCreateOrderFromConversation, hIntent, hConf, hMention, hStock, hPrice,
              hCost] at hnone
          · simp [maybeCreateOrderFromConversation, hIntent, hConf, hMention, hStock, hPrice, hCost]
            omega

def c5Widget : Product :=
  { id := 1, shopId := 1, name := "Widget", price := some 10, cost := some 4,
    stock := 5, active := true }

def c5Conversation : Conversation :=
  { id := 1, shopId := 1, customerId := "cust-5", customerName := some "Lee",
    platform := "chat", status := "active", pausedForHuman := false, lastMessageAt := 0 }

def c5Store : Store :=
  { shops := [{ id := 1, name := "Acme", businessType := "product" }], products := [c5Widget],
    conversations := [c5Conversation], messages := [], orders := [],
    nextConversationId := 2, nextMessageId := 1, nextOrderId := 1 }

def c5Params : OrderParams :=
  { shopId := 1, conversation := c5Conversation, productsList := [c5Widget],
    aiResponse := "Sure, let me check availability for you.", intent := .order,
    recentUserMessages := "I would like 2 units of Widget please",
    platform := some "chat" }

/-- Claim C5, witness: intent is `order`, the Widget is mentioned with
sufficient stock, but the AI reply carries no confirmation keyword — so no
order is created and the store is unchanged. -/
theorem c5_witness :
    (maybeCreateOrderFromConversation c5Params c5Store).2 = none
    ∧ (maybeCreateOrderFromConversation c5Params c5Store).1 = c5Store :=
  ⟨by decide, (c5_guard_characterization c5Params c5Store).1 (by decide)⟩

/-- Claim C6, amended.  The Order Extraction Heuristic's stock decrement
preserves non-negativity: it only decrements the mentioned product by a
quantity its guard has checked against current stock, so a store whose
stock levels are all non-negative stays that way.  (The product-update API
does not share this property — see the counterexample.) -/
theorem c6_decrement_preserves_nonneg_stock (p : OrderParams) (store : Store)
    (h : store.products.all (fun pr => decide (0 ≤ pr.stock)) = true) :
    (maybeCreateOrderFromConversation p store).1.products.all
      (fun pr => decide (0 ≤ pr.stock)) = true := by
  by_cases hIntent : p.intent = IntentType.order
  case neg => simpa [maybeCreateOrderFromConversation, hIntent] using h
  cases hConf : hasOrderConfirmation p.aiResponse with
  | false => simpa [maybeCreateOrderFromConversation, hIntent, hConf] using h
  | true =>
    cases hMention : mentionedProductIn p.productsList p.recentUserMessages p.aiResponse with
    | none => simpa [maybeCreateOrderFromConversation, hIntent, hConf, hMention] using h
    | some m =>
      by_cases hStock : m.stock < (extractedQuantity p.recentUserMessages : Int)
      case pos =>
        simpa [maybeCreateOrderFromConversation, hIntent, hConf, hMention, hStock] using h
      cases hPrice : m.price with
      | none =>
        simpa [maybeCreateOrderFromConversation, hIntent, hConf, hMention, hStock, hPrice] using h
      | some unitPrice =>
        cases hCost : m.cost with
        | none =>
          simpa [maybeCreateOrderFromConversation, hIntent, hConf, hMention, hStock, hPrice,
            hCost] using h
        | some unitCost =>
          rw [List.all_eq_true] at h ⊢
          intro pr hpr
          simp [maybeCreateOrderFromConversation, hIntent, hConf, hMention, hStock, hPrice, hCost,
            Store.updateConversation, Store.updateProduct, Store.createOrder,
            apply_ite Store.products] at hpr
          obtain ⟨x, hx, rfl⟩ := hpr
          by_cases hid : x.id = m.id ∧ x.shopId = p.shopId
          · simp [hid, applyProductPatch, emptyProductPatch]
            omega
          · simp only [hid, if_false]
            exact h x hx

def c6wConversation : Conversation :=
  { id := 1, shopId := 1, customerId := "cust-6", customerName := some "Kim",
    platform := "chat", status := "active", pausedForHuman := false, lastMessageAt := 0 }

def c6wParams : OrderParams :=
  { shopId := 1, conversation := c6wConversation, productsList := [c6Widget],
    aiResponse := "Great, we are processing your order now.", intent := .order,
    recentUserMessages := "I want to order a widget",
    platform := some "chat" }

/-- Claim C6, witness: a store with non-negative stock stays non-negative
through an order-creating run of the heuristic. -/
theorem c6_witness :
    c6Store.products.all (fun pr => decide (0 ≤ pr.stock)) = true
    ∧ (maybeCreateOrderFromConversation c6wParams c6Store).1.products.all
        (fun pr => decide (0 ≤ pr.stock)) = true :=
  ⟨by decide, c6_decrement_preserves_nonneg_stock c6wParams c6Store (by decide)⟩

end MyProject
